import Mathlib

/-!
Shallow embedding of the collision-resolution and game-state-transition core of
the Super-Mario-Bros repository (source: `Assignment 3/spritesheets/app.py`).

Conventions of the embedding:
* Direction tokens are the values returned by `get_collision_direction` (a
  helper of the external `game.util` module); the handlers in `app.py` branch
  on the characters `'A'`, `'B'`, `'L'`, `'R'`, which become the inductive
  `Dir`.  The handlers are embedded as functions of the direction token they
  receive.
* Wall-clock reads (`time.time()`) become an explicit rational parameter
  `now`; real-valued health and velocities become rationals.
* Each collision handler is embedded as a pure function from its inputs to a
  record of the effects it performs (state writes, removal requests, the
  high-score line it appends, the level reset it triggers) together with the
  boolean it returns to the physics engine (`solid`).
-/

namespace Mario

/-- Direction token returned by `get_collision_direction` and consumed by the
handlers in `app.py` (`'A'` above, `'B'` below, `'L'` left, `'R'` right). -/
inductive Dir where
  | A | B | L | R
deriving DecidableEq, Repr

/-- Modelled from the spec: `Player.change_health` lives in the external
`player` module (not part of the provided source).  The spec describes player
health as a float clamped to `[0, max_health]`, so a health change of `delta`
clamps the sum into that interval. -/
def change_health (maxHealth health delta : ℚ) : ℚ :=
  min maxHealth (max 0 (health + delta))

/-! ### Switch (`Switch.on_hit`, `Switch.check_time` in `app.py`) -/

/-- State of a `Switch` block: the `_active` flag and the `start` timestamp
(the other attributes `Switch.on_hit` writes, `_thing_categories` and a fresh
`pymunk.Space`, influence neither the flag nor the timestamp and are omitted). -/
structure SwitchState where
  active : Bool
  start : ℚ
deriving DecidableEq, Repr

/-- `Switch.on_hit`: returns unchanged unless the player hit the switch from
`'A'`; on an Above hit while active, deactivates and records `time.time()`;
on an Above hit while already inactive the guard `if self._active` fails and
nothing is written. -/
def Switch.on_hit (d : Dir) (now : ℚ) (s : SwitchState) : SwitchState :=
  if d ≠ Dir.A then s
  else if s.active then { active := false, start := now }
  else s

/-- `Switch.check_time`: when inactive and at least 10 seconds have passed
since `start`, reactivate; called from `Switch.step` every tick. -/
def Switch.check_time (now : ℚ) (s : SwitchState) : SwitchState :=
  if s.active = false then
    if 10 ≤ now - s.start then { s with active := true } else s
  else s

/-! ### Player invincibility (`Star.collect`, `MarioApp.player_invincible`,
`MarioApp.check_invincible`) -/

/-- Invincibility state held on the app: the `_player_invincible` flag and the
`_start_invincible` timestamp. -/
structure InvState where
  invincible : Bool
  start : ℚ
deriving DecidableEq, Repr

/-- `Star.collect` as invoked by the item handler (`Star.collect(self, player)`
with the app as receiver): sets the `_player_invincible` flag. -/
def Star.collect (s : InvState) : InvState :=
  { s with invincible := true }

/-- `MarioApp.player_invincible`: writes `_start_invincible = time.time()`,
then writes it again when the flag is already set; the net effect is that the
timestamp becomes `now`. -/
def player_invincible (now : ℚ) (s : InvState) : InvState :=
  let s1 : InvState := { s with start := now }
  if s1.invincible then { s1 with start := now } else s1

/-- Star-pickup path of `MarioApp._handle_player_collide_item`:
`Star.collect(self, player)` followed by `MarioApp.player_invincible(self)`. -/
def pickupStar (now : ℚ) (s : InvState) : InvState :=
  player_invincible now (Star.collect s)

/-- `MarioApp.check_invincible`: when invincible and at least 10 seconds have
passed since `_start_invincible`, clear the flag; called once per `step`. -/
def check_invincible (now : ℚ) (s : InvState) : InvState :=
  if s.invincible then
    if 10 ≤ now - s.start then { s with invincible := false } else s
  else s

/-! ### `MarioApp.retry` -/

/-- `MarioApp.retry`: the retry/quit dialog is presented exactly when the
player's health compares equal to `0.0`. -/
def retry (health : ℚ) : Bool :=
  if health = 0 then true else false

/-! ### `MarioApp._handle_player_collide_mob` -/

/-- Effects of one invocation of `_handle_player_collide_mob`: the player's
health and velocity afterwards, the mob tempo written (unchanged when no
`set_tempo` call runs), how many `world.remove_mob(mob)` requests were issued,
how many times the retry dialog was presented, and the boolean returned. -/
structure PMobOut where
  health : ℚ
  velocity : ℚ × ℚ
  tempo : ℚ
  removeMobCount : ℕ
  retryPrompts : ℕ
  solid : Bool
deriving DecidableEq, Repr

/-- `MarioApp._handle_player_collide_mob`, embedded over the mob identifier,
the direction token `get_collision_direction(self._player, mob)`, the
`_player_invincible` flag and the player's pre-collision state.  The base
`Mob.on_hit` invoked first lives in the external `game.mob` module; the spec
ascribes every player-mob effect to this handler, so it is taken as a no-op.
The `'L'`/`'R'`/`'A'` arms of the mushroom branch form an `elif` chain, which
flattens because the direction token is a single value. -/
def handle_player_collide_mob (mobId : String) (d : Dir) (inv : Bool)
    (maxHealth health : ℚ) (vel : ℚ × ℚ) (tempo : ℚ) : PMobOut :=
  let isMush : Bool := mobId = "mushroom"
  let health1 : ℚ :=
    if mobId = "fireball" ∧ inv = false then change_health maxHealth health (-3)
    else health
  let health2 : ℚ :=
    if isMush ∧ (d = Dir.L ∨ d = Dir.R) ∧ inv = false then
      change_health maxHealth health1 (-1)
    else health1
  let vel2 : ℚ × ℚ :=
    if isMush ∧ d = Dir.L ∧ inv = false then (-100, 0)
    else if isMush ∧ d = Dir.R ∧ inv = false then (100, 0)
    else if isMush ∧ d = Dir.A then (0, -100)
    else vel
  let tempo2 : ℚ :=
    if isMush ∧ (d = Dir.L ∨ d = Dir.R) ∧ inv = false then -35 else tempo
  let removes : ℕ :=
    (if isMush ∧ inv = true then 1 else 0) + (if isMush ∧ d = Dir.A then 1 else 0)
  { health := health2
    velocity := vel2
    tempo := tempo2
    removeMobCount := removes
    retryPrompts := if retry health2 then 1 else 0
    solid := true }

/-! ### `MarioApp._handle_mob_collide_block` -/

/-- Effects of `_handle_mob_collide_block`: removal requests, the mob's tempo
afterwards, and the returned boolean. -/
structure MBlockOut where
  removeBlock : Bool
  removeMob : Bool
  tempo : ℚ
  solid : Bool
deriving DecidableEq, Repr

/-- `MarioApp._handle_mob_collide_block`, embedded over the two identifiers,
the token `get_collision_direction(mob, block)` and the mob's tempo. -/
def handle_mob_collide_block (mobId blockId : String) (d : Dir)
    (tempo : ℚ) : MBlockOut :=
  { removeBlock := if mobId = "fireball" ∧ blockId = "brick" then true else false
    removeMob := if mobId = "fireball" then true else false
    tempo := if d = Dir.L then -35 else if d = Dir.R then 35 else tempo
    solid := true }

/-! ### `MarioApp._handle_mob_collide_mob` and `_handle_mob_collide_item` -/

/-- Effects of `_handle_mob_collide_mob`. -/
structure MMobOut where
  removeBoth : Bool
  tempo1 : ℚ
  tempo2 : ℚ
  solid : Bool
deriving DecidableEq, Repr

/-- `MarioApp._handle_mob_collide_mob`, over the two identifiers, the tokens
`get_collision_direction(mob1, mob2)` and `get_collision_direction(mob2, mob1)`
and the pre-collision tempos. -/
def handle_mob_collide_mob (id1 id2 : String) (d12 d21 : Dir)
    (t1 t2 : ℚ) : MMobOut :=
  let mush : Bool := id1 = "mushroom" ∨ id2 = "mushroom"
  { removeBoth := if id1 = "fireball" ∨ id2 = "fireball" then true else false
    tempo1 :=
      if mush ∧ d12 = Dir.L then -35
      else if mush ∧ d12 = Dir.R then 35
      else t1
    tempo2 :=
      if mush ∧ d21 = Dir.L then -35
      else if mush ∧ d21 = Dir.R then 35
      else t2
    solid := false }

/-- `MarioApp._handle_mob_collide_item`: the body is `return False`. -/
def handle_mob_collide_item (mobId itemId : String) : Bool :=
  false

/-! ### `MarioApp._handle_player_collide_item` -/

/-- Effects of `_handle_player_collide_item` that bear on the claims: the item
is removed, the invincibility state afterwards, and the returned boolean.
(`Coin.collect` adding score lives in the external `game.item` module and is
not needed by any claim.) -/
structure PItemOut where
  removeItem : Bool
  inv : InvState
  solid : Bool
deriving DecidableEq, Repr

/-- `MarioApp._handle_player_collide_item`: always removes the item; when the
item identifier is `'star'`, runs `Star.collect(self, player)` followed by
`MarioApp.player_invincible(self)` (the earlier `dropped_item.collect` call
sets a flag on the star instance itself, which is never read). -/
def handle_player_collide_item (itemId : String) (now : ℚ)
    (s : InvState) : PItemOut :=
  { removeItem := true
    inv := if itemId = "star" then pickupStar now s else s
    solid := false }

/-! ### `MarioApp._handle_player_collide_block` and
`_handle_player_separate_block` -/

/-- Effects of `_handle_player_collide_block`: the jumping flag and health
afterwards, the lines appended to the high-score file, the level file a
`reset_world` call was issued for (if any), and the returned boolean. -/
structure PBlockOut where
  jumping : Bool
  health : ℚ
  highscoreAppends : List String
  resetLevel : Option String
  solid : Bool
deriving DecidableEq, Repr

/-- `MarioApp._handle_player_collide_block`, over the block identifier, the
token `get_collision_direction(self._player, block)`, the ducking flag, the
name entered in the dialog, the player's score and pre-collision state.  The
`block.on_hit` call is the block's own state machine (embedded separately for
`Switch`); for `'flagpole'` and `'tunnel'` blocks it is the base `Block.on_hit`
of the external `game.block` module, with no effect on the fields below. -/
def handle_player_collide_block (blockId : String) (d : Dir) (ducking : Bool)
    (name : String) (score : ℕ) (maxHealth health : ℚ)
    (jumping : Bool) : PBlockOut :=
  let jumping1 : Bool := if d = Dir.A then false else jumping
  let health1 : ℚ :=
    if blockId = "flagpole" ∧ d = Dir.A then maxHealth else health
  let appends : List String :=
    if blockId = "flagpole" then
      [name ++ "  Score: " ++ toString score ++ " " ++ "\n"]
    else []
  let reset1 : Option String :=
    if blockId = "flagpole" then some "level2.txt"
    else if blockId = "tunnel" ∧ ducking = true ∧ d = Dir.A then
      some "level2.txt"
    else none
  { jumping := jumping1
    health := health1
    highscoreAppends := appends
    resetLevel := reset1
    solid := true }

/-- `MarioApp._handle_player_separate_block`: the body is `return True`; no
player or world state is touched, so the jumping flag passes through. -/
def handle_player_separate_block (jumping : Bool) : Bool × Bool :=
  (jumping, true)

/-! ### `read_config_file`

Python string operations are embedded over the character list of the string:
`str.strip` drops whitespace at both ends, `str.startswith`/`str.endswith`
for a single character inspect the first/last character, `str.count` counts
occurrences, `line[1:-1]` drops the first and last characters, and
`line.split(':')` with exactly one colon yields the parts before and after
that colon. -/

/-- Python `s.strip()`: remove leading and trailing whitespace. -/
def pyStrip (s : List Char) : List Char :=
  ((s.dropWhile Char.isWhitespace).reverse.dropWhile Char.isWhitespace).reverse

/-- Python `s.count(c)` for a single character. -/
def pyCount (c : Char) (s : List Char) : ℕ :=
  (s.filter (fun x => x = c)).length

/-- Python `s.startswith(c)` for a single character. -/
def pyStartsWith (c : Char) (s : List Char) : Bool :=
  s.head? = some c

/-- Python `s.endswith(c)` for a single character. -/
def pyEndsWith (c : Char) (s : List Char) : Bool :=
  s.getLast? = some c

/-- What `read_config_file` does with one line of the configuration file. -/
inductive LineAction where
  | header (h : String)
  | entry (key value : String)
  | skip
deriving DecidableEq, Repr

/-- Loop body of `read_config_file` for one raw line, given the current
`heading`: after stripping, a line that starts and ends with `'='` becomes a
new section header (named by `line[1:-1]`); otherwise a line with exactly one
`':'` seen while some header is current becomes a key-value entry
(`line.split(':')`, both sides stripped); every other line is skipped. -/
def classifyLine (heading : Option String) (raw : String) : LineAction :=
  let line := pyStrip raw.toList
  if pyStartsWith '=' line ∧ pyEndsWith '=' line then
    LineAction.header ((line.drop 1).dropLast).asString
  else if pyCount ':' line = 1 ∧ heading.isSome then
    LineAction.entry
      (pyStrip (line.takeWhile (fun c => c ≠ ':'))).asString
      (pyStrip ((line.dropWhile (fun c => c ≠ ':')).drop 1)).asString
  else LineAction.skip

/-- The `heading` variable of `read_config_file` after processing a list of
lines (it starts as `None` and is overwritten by each header line). -/
def headingAfter (lines : List String) : Option String :=
  lines.foldl
    (fun h raw =>
      match classifyLine h raw with
      | LineAction.header s => some s
      | _ => h)
    none

/-- Whether a line of the configuration file, arriving after the lines
`prev`, contributes a key-value entry to the parsed configuration. -/
def contributesEntry (prev : List String) (line : String) : Bool :=
  match classifyLine (headingAfter prev) line with
  | LineAction.entry _ _ => true
  | _ => false

/-- The nested dictionary built by `read_config_file`: a map from section
name to a map from key to value. -/
def Config := String → Option (String → Option String)

/-- One iteration of the loop of `read_config_file`: a header line assigns a
fresh empty section dictionary under its name; an entry line assigns the value
under its key in the current section's dictionary; any other line changes
nothing.  (The `none`-heading arm of the entry case is unreachable because
`classifyLine` only emits an entry when a heading exists.) -/
def configStep (st : Config × Option String) (raw : String) :
    Config × Option String :=
  match classifyLine st.2 raw with
  | LineAction.header h =>
      (fun s => if s = h then some (fun _ => none) else st.1 s, some h)
  | LineAction.entry k v =>
      match st.2 with
      | some h =>
          (fun s =>
            if s = h then
              some (fun key =>
                if key = k then some v
                else
                  match st.1 h with
                  | some m => m key
                  | none => none)
            else st.1 s,
           st.2)
      | none => st
  | LineAction.skip => st

/-- `read_config_file` over a list of raw lines: starts with an empty
configuration and no heading, folds the loop body over the lines. -/
def read_config_file (lines : List String) : Config × Option String :=
  lines.foldl configStep ((fun _ => none), none)

/-! ## Theorems -/

/-- C4: the switch state machine.  An Above strike while Active transitions to
Inactive and records the strike time; `check_time` (called from `Switch.step`
every tick) leaves the switch Inactive while fewer than 10 seconds have
elapsed and reactivates it once 10 seconds have elapsed; a second Above strike
while already Inactive changes neither the state nor the recorded start
time. -/
theorem switch_state_machine (now t : ℚ) :
    Switch.on_hit Dir.A now ⟨true, t⟩ = ⟨false, now⟩ ∧
    Switch.on_hit Dir.A now ⟨false, t⟩ = ⟨false, t⟩ ∧
    (now - t < 10 → Switch.check_time now ⟨false, t⟩ = ⟨false, t⟩) ∧
    (10 ≤ now - t → Switch.check_time now ⟨false, t⟩ = ⟨true, t⟩) := by
  refine ⟨?_, ?_, ?_, ?_⟩
  · simp [Switch.on_hit]
  · simp [Switch.on_hit]
  · intro h
    simp [Switch.check_time, not_le.mpr h]
  · intro h
    simp [Switch.check_time, h]

/-- Witness for `switch_state_machine` at concrete times: struck at time 5,
still inactive at time 14.9…, active again at time 15. -/
theorem switch_state_machine_witness :
    Switch.on_hit Dir.A 5 ⟨true, 0⟩ = ⟨false, 5⟩ ∧
    Switch.on_hit Dir.A 7 ⟨false, 5⟩ = ⟨false, 5⟩ ∧
    Switch.check_time 14 ⟨false, 5⟩ = ⟨false, 5⟩ ∧
    Switch.check_time 15 ⟨false, 5⟩ = ⟨true, 5⟩ :=
  ⟨(switch_state_machine 5 0).1, (switch_state_machine 7 5).2.1,
   (switch_state_machine 14 5).2.2.1 (by norm_num),
   (switch_state_machine 15 5).2.2.2 (by norm_num)⟩

/-- C5: star pickup and the invincibility window.  Picking up a star sets the
invincibility flag immediately and records the pickup time as the activation
time — whatever the previous state was, so a second pickup while already
invincible resets the activation time instead of stacking; `check_invincible`
(called once per `step`) keeps the flag while fewer than 10 seconds have
elapsed and clears it once 10 seconds have elapsed. -/
theorem star_invincibility_window (now t : ℚ) (b : Bool) :
    pickupStar now ⟨b, t⟩ = ⟨true, now⟩ ∧
    (now - t < 10 → check_invincible now ⟨true, t⟩ = ⟨true, t⟩) ∧
    (10 ≤ now - t → check_invincible now ⟨true, t⟩ = ⟨false, t⟩) := by
  refine ⟨?_, ?_, ?_⟩
  · cases b <;> simp [pickupStar, player_invincible, Star.collect]
  · intro h
    simp [check_invincible, not_le.mpr h]
  · intro h
    simp [check_invincible, h]

/-- Witness for `star_invincibility_window`: a star picked up at time 3 while
already invincible since time 0 resets the activation time to 3; the flag is
still set at time 12 and cleared at time 13. -/
theorem star_invincibility_window_witness :
    pickupStar 3 ⟨true, 0⟩ = ⟨true, 3⟩ ∧
    check_invincible 12 ⟨true, 3⟩ = ⟨true, 3⟩ ∧
    check_invincible 13 ⟨true, 3⟩ = ⟨false, 3⟩ :=
  ⟨(star_invincibility_window 3 0 true).1,
   (star_invincibility_window 12 3 true).2.1 (by norm_num),
   (star_invincibility_window 13 3 true).2.2 (by norm_num)⟩

/-- C7: the canonical solidity table.  For all entities and all direction
tokens, the player-item, mob-mob and mob-item handlers return `False`
(passthrough) and the player-block, player-mob and mob-block handlers return
`True` (solid). -/
theorem handler_solidity_table (itemId mobId blockId id1 id2 : String)
    (d d12 d21 : Dir) (inv ducking jumping : Bool) (now t t1 t2 : ℚ)
    (s : InvState) (name : String) (score : ℕ) (maxHealth health : ℚ)
    (vel : ℚ × ℚ) :
    (handle_player_collide_item itemId now s).solid = false ∧
    (handle_mob_collide_mob id1 id2 d12 d21 t1 t2).solid = false ∧
    handle_mob_collide_item mobId itemId = false ∧
    (handle_player_collide_block blockId d ducking name score maxHealth health
      jumping).solid = true ∧
    (handle_player_collide_mob mobId d inv maxHealth health vel t).solid
      = true ∧
    (handle_mob_collide_block mobId blockId d t).solid = true :=
  ⟨rfl, rfl, rfl, rfl, rfl, rfl⟩

/-- C10: when the player is invincible and the contact direction is Above, the
mushroom branch of `_handle_player_collide_mob` issues two
`world.remove_mob(mob)` requests for the same mushroom in a single handler
invocation: one from the invincibility branch and one from the
Above-direction branch. -/
theorem invincible_above_mushroom_double_removal (maxHealth health : ℚ)
    (vel : ℚ × ℚ) (tempo : ℚ) :
    (handle_player_collide_mob "mushroom" Dir.A true maxHealth health vel
      tempo).removeMobCount = 2 := by
  simp [handle_player_collide_mob]

/-- Helper shared by the retry theorems: the prompt count formed from `retry`
is 1 exactly on health 0 and is never more than 1. -/
theorem retry_count_spec (x : ℚ) :
    ((if retry x = true then (1 : ℕ) else 0) = 1 ↔ x = 0) ∧
    (0 < x → (if retry x = true then (1 : ℕ) else 0) = 0) ∧
    (if retry x = true then (1 : ℕ) else 0) ≤ 1 := by
  by_cases hx : x = 0
  · simp [retry, hx]
  · refine ⟨by simp [retry, hx], fun _ => by simp [retry, hx], ?_⟩
    simp [retry, hx]

/-- C8: `MarioApp.retry` presents the retry/quit dialog exactly when the
player's health compares equal to `0.0`; consequently, within one invocation
of `_handle_player_collide_mob` (the only place `retry` is called), the
dialog is presented exactly once when the post-collision health is 0, never
while it is greater than 0, and never more than once. -/
theorem retry_dialog_iff_zero_health (mobId : String) (d : Dir) (inv : Bool)
    (maxHealth health : ℚ) (vel : ℚ × ℚ) (tempo : ℚ) :
    (retry health = true ↔ health = 0) ∧
    ((handle_player_collide_mob mobId d inv maxHealth health vel
        tempo).retryPrompts = 1 ↔
      (handle_player_collide_mob mobId d inv maxHealth health vel
        tempo).health = 0) ∧
    (0 < (handle_player_collide_mob mobId d inv maxHealth health vel
        tempo).health →
      (handle_player_collide_mob mobId d inv maxHealth health vel
        tempo).retryPrompts = 0) ∧
    (handle_player_collide_mob mobId d inv maxHealth health vel
      tempo).retryPrompts ≤ 1 := by
  refine ⟨by simp [retry], ?_, ?_, ?_⟩
  · exact (retry_count_spec
      ((handle_player_collide_mob mobId d inv maxHealth health vel
        tempo).health)).1
  · exact (retry_count_spec
      ((handle_player_collide_mob mobId d inv maxHealth health vel
        tempo).health)).2.1
  · exact (retry_count_spec
      ((handle_player_collide_mob mobId d inv maxHealth health vel
        tempo).health)).2.2

/-- Witness for `retry_dialog_iff_zero_health`: a non-invincible player at
health 1 hit laterally by a mushroom drops to health 0 and is prompted once;
the same hit from health 20 leaves health 19 and no prompt. -/
theorem retry_dialog_iff_zero_health_witness :
    ((handle_player_collide_mob "mushroom" Dir.L false 20 1 (0, 0)
        45).retryPrompts = 1) ∧
    ((handle_player_collide_mob "mushroom" Dir.L false 20 20 (0, 0)
        45).retryPrompts = 0) :=
  ⟨(retry_dialog_iff_zero_health "mushroom" Dir.L false 20 1 (0, 0)
      45).2.1.mpr
    (by norm_num [handle_player_collide_mob, change_health, min_def, max_def,
      show ("mushroom" : String) ≠ "fireball" from by decide]),
   (retry_dialog_iff_zero_health "mushroom" Dir.L false 20 20 (0, 0)
      45).2.2.1
    (by norm_num [handle_player_collide_mob, change_health, min_def, max_def,
      show ("mushroom" : String) ≠ "fireball" from by decide])⟩

/-- C1 counterexample: on a lateral mushroom hit the handler does not flip
the tempo sign away from the approach side — it writes the constant `-35` on
both lateral directions.  With incoming tempo `-35` and a Left hit the tempo
is `-35` afterwards, the same negative sign as before (no flip); and a Right
hit with incoming tempo `45` also yields `-35`, the same value as the Left
hit, so the written tempo cannot point away from both opposite approach
sides. -/
theorem mushroom_lateral_tempo_constant :
    (handle_player_collide_mob "mushroom" Dir.L false 20 20 (0, 0)
      (-35)).tempo = -35 ∧
    (handle_player_collide_mob "mushroom" Dir.R false 20 20 (0, 0)
      45).tempo = -35 ∧
    ((-35 : ℚ) < 0) := by
  decide

/-- C1 as amended: for a player-mushroom contact, a lateral hit (`'L'` or
`'R'`) while not invincible clamps `health - 1` into `[0, maxHealth]` (an
exact decrease of 1 whenever `1 ≤ health ≤ maxHealth`), sets the knockback
velocity (`(-100, 0)` on a Left hit, `(100, 0)` on a Right hit) and sets the
mushroom's tempo to the constant `-35` on either side (not a sign flip);
an Above hit removes the mushroom (once, or twice when invincible), sets the
player's velocity to the upward impulse `(0, -100)` and leaves health
unchanged. -/
theorem mushroom_collision_amended (d : Dir) (inv : Bool)
    (maxHealth health : ℚ) (vel : ℚ × ℚ) (tempo : ℚ) :
    ((d = Dir.L ∨ d = Dir.R) →
      (handle_player_collide_mob "mushroom" d false maxHealth health vel
        tempo).health = change_health maxHealth health (-1) ∧
      (handle_player_collide_mob "mushroom" d false maxHealth health vel
        tempo).tempo = -35 ∧
      (handle_player_collide_mob "mushroom" d false maxHealth health vel
        tempo).velocity = (if d = Dir.L then (-100, 0) else (100, 0))) ∧
    ((d = Dir.L ∨ d = Dir.R) → 1 ≤ health → health ≤ maxHealth →
      (handle_player_collide_mob "mushroom" d false maxHealth health vel
        tempo).health = health - 1) ∧
    ((handle_player_collide_mob "mushroom" Dir.A inv maxHealth health vel
        tempo).velocity = (0, -100) ∧
      (handle_player_collide_mob "mushroom" Dir.A inv maxHealth health vel
        tempo).health = health ∧
      (handle_player_collide_mob "mushroom" Dir.A inv maxHealth health vel
        tempo).removeMobCount = (if inv = true then 2 else 1)) := by
  have hmf : ("mushroom" : String) ≠ "fireball" := by decide
  refine ⟨?_, ?_, ?_⟩
  · rintro (h | h) <;> subst h <;>
      simp [handle_player_collide_mob, hmf]
  · rintro hd h1 h2
    have hc : change_health maxHealth health (-1) = health - 1 := by
      rw [change_health, max_eq_right (by linarith), min_eq_right (by linarith)]
      ring
    rcases hd with h | h <;> subst h <;>
      simp [handle_player_collide_mob, hmf, hc]
  · cases inv <;> simp [handle_player_collide_mob, hmf]

/-- Witness for `mushroom_collision_amended`: a Left hit at full health 20
leaves health 19, tempo `-35` and velocity `(-100, 0)`; an Above hit while
not invincible issues one removal. -/
theorem mushroom_collision_amended_witness :
    (handle_player_collide_mob "mushroom" Dir.L false 20 20 (0, 0)
      45).health = 19 ∧
    (handle_player_collide_mob "mushroom" Dir.L false 20 20 (0, 0)
      45).tempo = -35 ∧
    (handle_player_collide_mob "mushroom" Dir.L false 20 20 (0, 0)
      45).velocity = (-100, 0) ∧
    (handle_player_collide_mob "mushroom" Dir.A false 20 20 (0, 0)
      45).removeMobCount = 1 := by
  refine ⟨?_, ?_, ?_, ?_⟩
  · have h := (mushroom_collision_amended Dir.L false 20 20 (0, 0) 45).2.1
      (Or.inl rfl) (by norm_num) (by norm_num)
    rw [h]; norm_num
  · exact ((mushroom_collision_amended Dir.L false 20 20 (0, 0) 45).1
      (Or.inl rfl)).2.1
  · have h := ((mushroom_collision_amended Dir.L false 20 20 (0, 0) 45).1
      (Or.inl rfl)).2.2
    simpa using h
  · have h := (mushroom_collision_amended Dir.A false 20 20 (0, 0) 45).2.2.2.2
    simpa using h

/-- C2 counterexample: a mob-block contact with direction token `'L'` sets the
tempo to `-35`, a negative (leftward) value, where the claim demands a
positive (rightward) one. -/
theorem mob_block_left_contact_negative_tempo :
    (handle_mob_collide_block "cloud" "brick" Dir.L 45).tempo = -35 ∧
    (handle_mob_collide_block "cloud" "brick" Dir.L 45).tempo < 0 := by
  decide

/-- C2 as amended: a lateral mob-block contact sets the mob's tempo to the
fixed magnitude 35 with the sign matching the direction token — `'L'` yields
`-35` (leftward) and `'R'` yields `35` (rightward); the convention of
`get_collision_direction(mob, block)` used by the game places the mob on the
named side of the block, so the mob is pushed away from the block it struck.
Vertical tokens leave the tempo unchanged. -/
theorem mob_block_tempo_amended (mobId blockId : String) (tempo : ℚ) :
    (handle_mob_collide_block mobId blockId Dir.L tempo).tempo = -35 ∧
    (handle_mob_collide_block mobId blockId Dir.R tempo).tempo = 35 ∧
    (handle_mob_collide_block mobId blockId Dir.A tempo).tempo = tempo ∧
    (handle_mob_collide_block mobId blockId Dir.B tempo).tempo = tempo :=
  ⟨rfl, rfl, rfl, rfl⟩

/-- C3 counterexample: a flagpole contact with direction token `'L'` (not
Above) still appends the high-score line and still rebuilds the world from
`level2.txt` — only the health restoration is gated on Above (here health
stays 5). -/
theorem flagpole_side_contact_still_advances :
    (handle_player_collide_block "flagpole" Dir.L false "abc" 7 20 5
      false).highscoreAppends = ["abc  Score: 7 \n"] ∧
    (handle_player_collide_block "flagpole" Dir.L false "abc" 7 20 5
      false).resetLevel = some "level2.txt" ∧
    (handle_player_collide_block "flagpole" Dir.L false "abc" 7 20 5
      false).health = 5 := by
  decide

/-- C3 as amended: every flagpole contact, from any side, appends exactly one
high-score line in the literal format `<name>  Score: <score> \n` and rebuilds
the world from the hard-coded level file `level2.txt`; the player's health is
restored to maximum exactly when the contact direction is Above, and is
untouched otherwise. -/
theorem flagpole_contact_amended (d : Dir) (ducking : Bool) (name : String)
    (score : ℕ) (maxHealth health : ℚ) (jumping : Bool) :
    (handle_player_collide_block "flagpole" d ducking name score maxHealth
      health jumping).highscoreAppends
      = [name ++ "  Score: " ++ toString score ++ " " ++ "\n"] ∧
    (handle_player_collide_block "flagpole" d ducking name score maxHealth
      health jumping).resetLevel = some "level2.txt" ∧
    (d = Dir.A →
      (handle_player_collide_block "flagpole" d ducking name score maxHealth
        health jumping).health = maxHealth) ∧
    (d ≠ Dir.A →
      (handle_player_collide_block "flagpole" d ducking name score maxHealth
        health jumping).health = health) := by
  refine ⟨rfl, rfl, ?_, ?_⟩
  · intro h
    subst h
    simp [handle_player_collide_block]
  · intro h
    simp [handle_player_collide_block, h]

/-- Witness for `flagpole_contact_amended`: an Above contact restores health
from 5 to the maximum 20 and appends the formatted line. -/
theorem flagpole_contact_amended_witness :
    (handle_player_collide_block "flagpole" Dir.A false "abc" 7 20 5
      false).health = 20 ∧
    (handle_player_collide_block "flagpole" Dir.A false "abc" 7 20 5
      false).highscoreAppends = ["abc  Score: 7 \n"] := by
  refine ⟨(flagpole_contact_amended Dir.A false "abc" 7 20 5 false).2.2.1
    rfl, ?_⟩
  have h := (flagpole_contact_amended Dir.A false "abc" 7 20 5 false).1
  rw [h]
  decide

/-- C6 counterexample: `_handle_player_separate_block` consists of
`return True`; when the player leaves a supporting block with the jumping
flag set, the flag is still set afterwards — the separate handler resets
nothing. -/
theorem separate_block_resets_nothing :
    handle_player_separate_block true = (true, true) := rfl

/-- C6 as amended: a player-block contact with direction token `'A'` clears
the jumping flag in the begin-contact handler (for every block kind); the
separate-contact handler performs no state change at all — it returns `True`
and leaves the jumping flag exactly as it was. -/
theorem jumping_flag_amended (blockId : String) (d : Dir) (ducking : Bool)
    (name : String) (score : ℕ) (maxHealth health : ℚ) (jumping : Bool) :
    (d = Dir.A →
      (handle_player_collide_block blockId d ducking name score maxHealth
        health jumping).jumping = false) ∧
    (handle_player_separate_block jumping).1 = jumping ∧
    (handle_player_separate_block jumping).2 = true := by
  refine ⟨?_, rfl, rfl⟩
  intro h
  subst h
  simp [handle_player_collide_block]

/-- Witness for `jumping_flag_amended`: landing on a brick from Above clears
a set jumping flag; separating leaves a set jumping flag set. -/
theorem jumping_flag_amended_witness :
    (handle_player_collide_block "brick" Dir.A false "n" 0 20 20
      true).jumping = false ∧
    (handle_player_separate_block true).1 = true :=
  ⟨(jumping_flag_amended "brick" Dir.A false "n" 0 20 20 true).1 rfl,
   (jumping_flag_amended "brick" Dir.A false "n" 0 20 20 true).2.1⟩

/-- C9 counterexample: the stripped line `=a:b=` contains exactly one `':'`
and appears after the section header `=World=`, yet it contributes no
key-value entry — the header check runs first, so the line becomes a new
section header instead. -/
theorem header_shaped_colon_line_not_entry :
    pyCount ':' (pyStrip ("=a:b=".toList)) = 1 ∧
    (headingAfter ["=World="]).isSome = true ∧
    contributesEntry ["=World="] "=a:b=" = false ∧
    classifyLine (headingAfter ["=World="]) "=a:b="
      = LineAction.header "a:b" := by
  decide

/-- C9 as amended: a configuration line contributes a key-value entry exactly
when its stripped form contains exactly one `':'`, is not itself shaped like
a section header (starting and ending with `'='`), and appears while some
section header is current; a line is classified as skipped exactly when it is
neither header-shaped nor such an entry line, and every skipped line leaves
the parsed configuration and the current heading entirely unchanged
(header-shaped lines are not skipped: they install a fresh empty section and
become the current heading). -/
theorem config_entry_amended (prev : List String) (line : String) :
    (contributesEntry prev line = true ↔
      (headingAfter prev).isSome = true ∧
      pyCount ':' (pyStrip line.toList) = 1 ∧
      ¬(pyStartsWith '=' (pyStrip line.toList) = true ∧
        pyEndsWith '=' (pyStrip line.toList) = true)) ∧
    (∀ h : Option String,
      classifyLine h line = LineAction.skip ↔
        ¬(pyStartsWith '=' (pyStrip line.toList) = true ∧
          pyEndsWith '=' (pyStrip line.toList) = true) ∧
        ¬(pyCount ':' (pyStrip line.toList) = 1 ∧ h.isSome = true)) ∧
    (∀ (cfg : Config) (h : Option String),
      classifyLine h line = LineAction.skip →
        configStep (cfg, h) line = (cfg, h)) := by
  refine ⟨?_, ?_, ?_⟩
  · simp only [contributesEntry, classifyLine]
    by_cases h1 : pyStartsWith '=' (pyStrip line.toList) = true ∧
        pyEndsWith '=' (pyStrip line.toList) = true
    · rw [if_pos h1]
      constructor
      · intro hfalse
        exact (Bool.false_ne_true hfalse).elim
      · intro hr
        exact absurd h1 hr.2.2
    · rw [if_neg h1]
      by_cases h2 : pyCount ':' (pyStrip line.toList) = 1 ∧
          (headingAfter prev).isSome = true
      · rw [if_pos h2]
        constructor
        · intro _
          exact ⟨h2.2, h2.1, h1⟩
        · intro _
          rfl
      · rw [if_neg h2]
        constructor
        · intro hfalse
          exact (Bool.false_ne_true hfalse).elim
        · rintro ⟨hs, hc, _⟩
          exact absurd ⟨hc, hs⟩ h2
  · intro h
    simp only [classifyLine]
    by_cases h1 : pyStartsWith '=' (pyStrip line.toList) = true ∧
        pyEndsWith '=' (pyStrip line.toList) = true
    · rw [if_pos h1]
      constructor
      · intro hk
        exact LineAction.noConfusion hk
      · rintro ⟨hn, _⟩
        exact absurd h1 hn
    · rw [if_neg h1]
      by_cases h2 : pyCount ':' (pyStrip line.toList) = 1 ∧ h.isSome = true
      · rw [if_pos h2]
        constructor
        · intro hk
          exact LineAction.noConfusion hk
        · rintro ⟨_, hn2⟩
          exact absurd h2 hn2
      · rw [if_neg h2]
        exact ⟨fun _ => ⟨h1, h2⟩, fun _ => rfl⟩
  · intro cfg h hskip
    unfold configStep
    rw [hskip]

/-- Witness for `config_entry_amended`: `gravity: 300` after the header
`=World=` contributes an entry, and the colon-free line `no colon` is skipped
and changes nothing. -/
theorem config_entry_amended_witness :
    contributesEntry ["=World="] "gravity: 300" = true ∧
    classifyLine (some "World") "no colon" = LineAction.skip ∧
    configStep ((fun _ => none), some "World") "no colon"
      = ((fun _ => none), some "World") :=
  ⟨(config_entry_amended ["=World="] "gravity: 300").1.mpr
    (by refine ⟨by decide, by decide, by decide⟩),
   ((config_entry_amended ["=World="] "no colon").2.1 (some "World")).mpr
    ⟨by decide, by decide⟩,
   (config_entry_amended ["=World="] "no colon").2.2 (fun _ => none)
    (some "World") (by decide)⟩

end Mario
